import Mathlib

/-!
Shallow embedding of the WADS_backend help-desk service (FastAPI + MongoDB),
covering the WebSocket connection registry (`app/websocket/manager.py`),
the notification service (`app/services/notification_service.py`),
ticket/chat/notification routes (`app/routes/tickets.py`, `app/routes/chat.py`,
`app/routes/notifications.py`, `app/routes/auth.py`) and the permission helper
(`app/utils/auth.py`).

Python dictionaries are embedded as association lists whose insert operation
first removes every binding of the key (so each key has at most one binding),
Python sets as duplicate-free lists, MongoDB collections as lists of documents
in insertion order (`find_one` returns the first match, `update_one` /
`delete_one` affect the first match, `update_many` / `delete_many` affect all
matches).  WebSocket handles are identified by numbers; whether a socket is
still open and whether a send on it succeeds are supplied as environments
`openSock, sendOk : Nat → Bool`, mirroring `websocket.client_state.name ==
"CONNECTED"` and the absence of an exception in `await websocket.send_text`.
-/

namespace WADS

/-- Roles of `UserRole` in `app/models/user.py`. -/
inductive Role where
  | customer
  | agent
  | admin
deriving DecidableEq, Repr

/-- Keys of an association list (the embedding of a Python dict). -/
def keys {β : Type} (m : List (String × β)) : List String :=
  m.map Prod.fst

/-- Dictionary write `d[k] = v`: all previous bindings of `k` are dropped. -/
def mapInsert {β : Type} (k : String) (v : β) (m : List (String × β)) :
    List (String × β) :=
  (k, v) :: m.filter (fun p => decide (p.1 ≠ k))

/-- Dictionary read `d.get(k)`. -/
def mapLookup {β : Type} (k : String) : List (String × β) → Option β
  | [] => none
  | p :: rest => if p.1 = k then some p.2 else mapLookup k rest

/-- Dictionary deletion `del d[k]` (a no-op when the key is absent, matching
the `if key in d` guards in `ConnectionManager.disconnect`). -/
def mapErase {β : Type} (k : String) (m : List (String × β)) :
    List (String × β) :=
  m.filter (fun p => decide (p.1 ≠ k))

/-- Set insertion `s.add(x)`. -/
def setAdd (u : String) (s : List String) : List String :=
  if u ∈ s then s else u :: s

/-- Set removal `s.remove(x)` (guarded by membership in the source). -/
def setRemove (u : String) (s : List String) : List String :=
  s.filter (fun v => decide (v ≠ u))

/-- State of `ConnectionManager` in `app/websocket/manager.py`: active
connections by user id, the admin/agent user-id set, and user roles. -/
structure ConnectionManager where
  active_connections : List (String × Nat)
  admin_connections : List String
  user_roles : List (String × Role)
deriving DecidableEq, Repr

/-- The freshly constructed manager (`ConnectionManager.__init__`). -/
def ConnectionManager.empty : ConnectionManager :=
  { active_connections := [], admin_connections := [], user_roles := [] }

/-- Sockets on which `register_connection` attempts a best-effort close:
the previously registered connection of the user, when there is one. -/
def ConnectionManager.closedByRegister (st : ConnectionManager)
    (user_id : String) : List Nat :=
  match mapLookup user_id st.active_connections with
  | some old => [old]
  | none => []

/-- State change of `ConnectionManager.register_connection` (manager.py lines
30-47): the user's entry in `active_connections` and `user_roles` is
overwritten unconditionally, and admins/agents are added to
`admin_connections`.  The best-effort close of the old socket does not touch
the registry (its outcome is ignored). -/
def ConnectionManager.register_connection (st : ConnectionManager)
    (websocket : Nat) (user_id : String) (user_role : Role) :
    ConnectionManager :=
  { active_connections := mapInsert user_id websocket st.active_connections
    admin_connections :=
      if user_role = Role.admin ∨ user_role = Role.agent then
        setAdd user_id st.admin_connections
      else
        st.admin_connections
    user_roles := mapInsert user_id user_role st.user_roles }

/-- The method `ConnectionManager.disconnect` (manager.py lines 49-58): keyed
by the user id alone, it erases the user from all three registry components. -/
def ConnectionManager.disconnect (st : ConnectionManager) (user_id : String) :
    ConnectionManager :=
  { active_connections := mapErase user_id st.active_connections
    admin_connections := setRemove user_id st.admin_connections
    user_roles := mapErase user_id st.user_roles }

/-- The method `ConnectionManager.is_user_connected`. -/
def ConnectionManager.is_user_connected (st : ConnectionManager)
    (user_id : String) : Bool :=
  (mapLookup user_id st.active_connections).isSome

/-- Outcome of one send attempt in `send_personal_message`. -/
inductive SendOutcome where
  | noConnection
  | sent (socket : Nat)
  | droppedNotOpen
  | droppedError
deriving DecidableEq, Repr

/-- The method `ConnectionManager.send_personal_message` (manager.py lines
60-74): nothing happens when the user has no registered connection; when the
socket is no longer open, or the send raises, the user is deregistered via
`disconnect` and the error is only logged. -/
def ConnectionManager.send_personal_message (openSock sendOk : Nat → Bool)
    (st : ConnectionManager) (user_id : String) :
    ConnectionManager × SendOutcome :=
  match mapLookup user_id st.active_connections with
  | none => (st, SendOutcome.noConnection)
  | some ws =>
    if openSock ws then
      if sendOk ws then (st, SendOutcome.sent ws)
      else (st.disconnect user_id, SendOutcome.droppedError)
    else (st.disconnect user_id, SendOutcome.droppedNotOpen)

/-- The method `ConnectionManager.broadcast_to_admins` (manager.py lines
76-94): it iterates over a copy of `admin_connections`, skips users without an
active connection, collects the users whose socket is closed or whose send
raises, and disconnects them after the loop. -/
def ConnectionManager.broadcast_to_admins (openSock sendOk : Nat → Bool)
    (st : ConnectionManager) : ConnectionManager :=
  let disconnected := st.admin_connections.filter (fun u =>
    match mapLookup u st.active_connections with
    | none => false
    | some ws => !(openSock ws && sendOk ws))
  disconnected.foldl ConnectionManager.disconnect st

/-- The method `ConnectionManager.broadcast_to_all` (manager.py lines 96-112):
same cleanup pattern over a copy of `active_connections`. -/
def ConnectionManager.broadcast_to_all (openSock sendOk : Nat → Bool)
    (st : ConnectionManager) : ConnectionManager :=
  let disconnected := (st.active_connections.filter (fun p =>
    !(openSock p.2 && sendOk p.2))).map Prod.fst
  disconnected.foldl ConnectionManager.disconnect st

/-- Result of `ConnectionManager.get_connection_info` (the fields the claims
mention); `customer_connections` is the Python integer subtraction
`len(active_connections) - len(admin_connections)`. -/
structure ConnectionInfo where
  total_connections : Nat
  admin_connections : Nat
  customer_connections : Int
deriving DecidableEq, Repr

/-- The method `ConnectionManager.get_connection_info` (manager.py 157-166). -/
def ConnectionManager.get_connection_info (st : ConnectionManager) :
    ConnectionInfo :=
  { total_connections := st.active_connections.length
    admin_connections := st.admin_connections.length
    customer_connections :=
      (st.active_connections.length : Int) -
        (st.admin_connections.length : Int) }

/-- One registry-mutating call; the socket environments of a send event record
which sockets were open and which sends succeeded at that moment. -/
inductive RegistryEvent where
  | registerEv (websocket : Nat) (user_id : String) (user_role : Role)
  | disconnectEv (user_id : String)
  | sendPersonalEv (openSock sendOk : Nat → Bool) (user_id : String)
  | broadcastAdminsEv (openSock sendOk : Nat → Bool)
  | broadcastAllEv (openSock sendOk : Nat → Bool)

/-- Effect of one registry event on the manager state. -/
def applyEvent (st : ConnectionManager) : RegistryEvent → ConnectionManager
  | RegistryEvent.registerEv ws uid role => st.register_connection ws uid role
  | RegistryEvent.disconnectEv uid => st.disconnect uid
  | RegistryEvent.sendPersonalEv o s uid =>
      (ConnectionManager.send_personal_message o s st uid).1
  | RegistryEvent.broadcastAdminsEv o s =>
      ConnectionManager.broadcast_to_admins o s st
  | RegistryEvent.broadcastAllEv o s =>
      ConnectionManager.broadcast_to_all o s st

/-- Manager state after a sequence of registry events, starting from the
freshly constructed manager. -/
def runEvents (evs : List RegistryEvent) : ConnectionManager :=
  evs.foldl applyEvent ConnectionManager.empty

/-- Number of bindings of a key in an association list. -/
def countKey {β : Type} (k : String) (m : List (String × β)) : Nat :=
  (m.filter (fun p => decide (p.1 = k))).length

/-- JSON values, the payload of every WebSocket frame (the server always
serialises a Python dict with `json.dumps`). -/
inductive Json where
  | null
  | bool (b : Bool)
  | num (n : Int)
  | str (s : String)
  | arr (xs : List Json)
  | obj (fields : List (String × Json))

/-- Field access on a JSON object. -/
def Json.lookupField (j : Json) (k : String) : Option Json :=
  match j with
  | Json.obj fields => mapLookup k fields
  | _ => none

/-- Frame built by `ConnectionManager.send_notification` (manager.py 114-120). -/
def notificationFrame (d : Json) : Json :=
  Json.obj [("type", Json.str "notification"), ("data", d)]

/-- Frame built by `ConnectionManager.send_ticket_update` (manager.py 122-135). -/
def ticketUpdateFrame (d : Json) : Json :=
  Json.obj [("type", Json.str "ticket_update"), ("data", d)]

/-- Frame built by `ConnectionManager.send_new_ticket_alert` (manager.py
137-143). -/
def newTicketFrame (d : Json) : Json :=
  Json.obj [("type", Json.str "new_ticket"), ("data", d)]

/-- Frame sent by `websocket_endpoint` when authentication fails (routes.py
100-106) and on internal errors (routes.py 155-161). -/
def errorFrame (message : String) (code : Int) : Json :=
  Json.obj [("type", Json.str "error"),
    ("data", Json.obj [("message", Json.str message), ("code", Json.num code)])]

/-- Frame sent by `websocket_endpoint` after a successful registration
(routes.py 115-123). -/
def connectionEstablishedFrame (user_id username role message : String) :
    Json :=
  Json.obj [("type", Json.str "connection_established"),
    ("data", Json.obj [("user_id", Json.str user_id),
      ("username", Json.str username), ("role", Json.str role),
      ("message", Json.str message)])]

/-- Frame sent by `websocket_endpoint` in reply to a ping (routes.py 134-137);
the echoed timestamp is whatever `message.get("timestamp")` produced. -/
def pongFrame (timestamp : Json) : Json :=
  Json.obj [("type", Json.str "pong"), ("timestamp", timestamp)]

/-- Frame sent by `handle_notification_read` (routes.py 197-202). -/
def notificationReadConfirmedFrame (notification_id : String) : Json :=
  Json.obj [("type", Json.str "notification_read_confirmed"),
    ("data", Json.obj [("notification_id", Json.str notification_id)])]

/-- Inductive enumeration of every value the server ever hands to
`websocket.send_text`: the three envelope builders of the manager (the only
messages ever passed to `send_personal_message`, `broadcast_to_admins` and
`broadcast_to_all` by their callers), and the four frames built inline in
`app/websocket/routes.py`. -/
inductive ServerFrame : Json → Prop where
  | notif (d : Json) : ServerFrame (notificationFrame d)
  | ticketUpdate (d : Json) : ServerFrame (ticketUpdateFrame d)
  | newTicket (d : Json) : ServerFrame (newTicketFrame d)
  | error (m : String) (c : Int) : ServerFrame (errorFrame m c)
  | established (u n r m : String) :
      ServerFrame (connectionEstablishedFrame u n r m)
  | pong (ts : Json) : ServerFrame (pongFrame ts)
  | readConfirmed (nid : String) :
      ServerFrame (notificationReadConfirmedFrame nid)

/-- User document of the `users` collection, restricted to the fields the
claims read.  `is_active` is optional because route-created users carry a
`status` field instead; only script-created users have `is_active` set, and a
MongoDB filter `{"is_active": True}` matches only documents where the field is
present and true. -/
structure UserDoc where
  id : String
  role : Role
  is_active : Option Bool
deriving DecidableEq, Repr

/-- Ticket document of the `tickets` collection, restricted to the fields the
claims read (`create_ticket` initialises `status = "open"`,
`message_count = 0`). -/
structure TicketDoc where
  id : Nat
  created_by : String
  status : String
  priority : String
  category : String
  created_at : Nat
  message_count : Int
deriving DecidableEq, Repr

/-- Message document of the `messages` collection, restricted to the fields
the claims read. -/
structure MessageDoc where
  id : Nat
  ticket_id : Nat
  sender_id : String
deriving DecidableEq, Repr

/-- Notification document as built by
`NotificationService.create_and_broadcast_notification`
(notification_service.py 36-47); the generated ObjectId is embedded as a
numeric `id`, timestamps as numbers. -/
structure NotificationDoc where
  id : Nat
  user_id : String
  notification_type : String
  title : String
  message : String
  ticket_id : Option Nat
  priority : String
  is_read : Bool
  read_at : Option Nat
  created_at : Nat
deriving DecidableEq, Repr

/-- The document inserted by `create_and_broadcast_notification`: always
unread, `read_at = None`, with no field recording whether a WebSocket delivery
happened. -/
def newNotificationDoc (id : Nat) (user_id : String)
    (notification_type title message : String) (ticket_id : Option Nat)
    (priority : String) (now : Nat) : NotificationDoc :=
  { id := id, user_id := user_id, notification_type := notification_type
    title := title, message := message, ticket_id := ticket_id
    priority := priority, is_read := false, read_at := none
    created_at := now }

/-- The database: the four collections the claims touch, in insertion order. -/
structure Db where
  users : List UserDoc
  tickets : List TicketDoc
  messages : List MessageDoc
  notifications : List NotificationDoc
deriving DecidableEq, Repr

/-- MongoDB `db.tickets.find_one({"_id": t})`. -/
def findTicket (db : Db) (t : Nat) : Option TicketDoc :=
  db.tickets.find? (fun tk => tk.id == t)

/-- MongoDB `db.messages.find_one({"_id": m})`. -/
def findMessage (db : Db) (m : Nat) : Option MessageDoc :=
  db.messages.find? (fun ms => ms.id == m)

/-- MongoDB `db.tickets.update_one({"_id": t}, {"$inc": {"message_count": d}})`
(ticket ids are unique, so updating every match coincides with `update_one`);
a no-op when the ticket does not exist. -/
def incMessageCount (db : Db) (t : Nat) (d : Int) : Db :=
  { db with tickets := db.tickets.map (fun tk =>
      if tk.id = t then { tk with message_count := tk.message_count + d }
      else tk) }

/-- The helper `check_ticket_permissions` of `app/utils/auth.py` (lines
152-168), applied to the result of the ticket lookup: a missing ticket yields
`False`; admins and agents may access every ticket; customers only their own. -/
def check_ticket_permissions (ticket : Option TicketDoc) (user_id : String)
    (role : Role) : Bool :=
  match ticket with
  | none => false
  | some tk =>
    if role = Role.admin ∨ role = Role.agent then true
    else if role = Role.customer then tk.created_by == user_id
    else false

/-- Admin/agent users matched by the `notify_all_admins` query of
`create_ticket_notification` (notification_service.py 109-112):
`{"role": {"$in": ["admin", "agent"]}, "is_active": True}`. -/
def activeAdminIds (db : Db) : List String :=
  (db.users.filter (fun u =>
    (u.role == Role.admin || u.role == Role.agent) &&
      u.is_active == some true)).map UserDoc.id

/-- Control state of one in-flight request, with one state per atomic
database write and with the read-only phases of a request grouped into the
step that consumes their results (reads do not change the database, so
grouping them only removes interleavings and never adds reachable states).

The request kinds are the operations claim C3 names:
`POST /tickets/` (`create_ticket`, including the notification inserts done by
`notify_new_ticket` / `create_ticket_notification`), `POST /chat/messages`
(`send_message`), `DELETE /chat/messages/{id}` (`delete_message`) and
`DELETE /tickets/{id}` (`delete_ticket`). -/
inductive ThreadState where
  | createT1 (t : Nat) (creator : String)
  | createT2 (t : Nat)
  | createT3 (t : Nat) (pending : List String)
  | sendM1 (u : String) (role : Role) (t m : Nat)
  | sendM2 (u : String) (t m : Nat)
  | sendM3 (t : Nat)
  | delM1 (u : String) (m : Nat)
  | delM2 (m t : Nat)
  | delM3 (t : Nat)
  | delT1 (t : Nat)
  | doneT
  | abortedT (code : Nat)
deriving DecidableEq, Repr

/-- Thread states in which a request starts. -/
def isOperationStart : ThreadState → Bool
  | ThreadState.createT1 _ _ => true
  | ThreadState.sendM1 _ _ _ _ => true
  | ThreadState.delM1 _ _ => true
  | ThreadState.delT1 _ => true
  | _ => false

/-- One atomic step of a request against the database.

`createT1`: `db.tickets.insert_one` of `create_ticket` (tickets.py 48) with
`message_count = 0`, `status = "open"`.
`createT2`: the reads of `notify_new_ticket` / `create_ticket_notification`;
with no active admins the recipient list falls back to the ticket creator
(notification_service.py 119-120); `set(...)` is embedded as `dedup`.
`createT3`: one `db.notifications.insert_one` per recipient via
`create_and_broadcast_notification` (notification_service.py 50), with
`ticket_id` set to the new ticket; titles, texts and generated ids are
abstracted to fixed schemes as they play no role in claim C3.
`sendM1`-`sendM3`: the permission read, the message insert (chat.py 50) and
the separate `message_count` increment (chat.py 53-59) of `send_message`.
`delM1`-`delM3`: the message read with its sender check (chat.py 323-334),
the `delete_one` (chat.py 337) and the separate decrement (chat.py 340-343)
of `delete_message`; the decrement is unconditional even when the
`delete_one` matched nothing.
`delT1`: `db.tickets.delete_one` of `delete_ticket` (tickets.py 411), which
removes only the ticket document. -/
def stepThread (db : Db) : ThreadState → Db × ThreadState
  | ThreadState.createT1 t creator =>
    ({ db with tickets := db.tickets ++
        [{ id := t, created_by := creator, status := "open"
           priority := "medium", category := "general", created_at := 0
           message_count := 0 }] },
     ThreadState.createT2 t)
  | ThreadState.createT2 t =>
    match findTicket db t with
    | none => (db, ThreadState.doneT)
    | some tk =>
      let recipients := activeAdminIds db
      let recipients :=
        if recipients.isEmpty then [tk.created_by] else recipients
      (db, ThreadState.createT3 t recipients.dedup)
  | ThreadState.createT3 t pending =>
    match pending with
    | [] => (db, ThreadState.doneT)
    | uid :: rest =>
      ({ db with notifications := db.notifications ++
          [newNotificationDoc (1000 * t + rest.length) uid "ticket_created"
            "New Ticket" "New ticket submitted" (some t) "medium" 0] },
       ThreadState.createT3 t rest)
  | ThreadState.sendM1 u role t m =>
    if check_ticket_permissions (findTicket db t) u role then
      (db, ThreadState.sendM2 u t m)
    else (db, ThreadState.abortedT 403)
  | ThreadState.sendM2 u t m =>
    ({ db with messages := db.messages ++
        [{ id := m, ticket_id := t, sender_id := u }] },
     ThreadState.sendM3 t)
  | ThreadState.sendM3 t => (incMessageCount db t 1, ThreadState.doneT)
  | ThreadState.delM1 u m =>
    match findMessage db m with
    | none => (db, ThreadState.abortedT 404)
    | some ms =>
      if ms.sender_id = u then (db, ThreadState.delM2 m ms.ticket_id)
      else (db, ThreadState.abortedT 403)
  | ThreadState.delM2 m t =>
    ({ db with messages := db.messages.filter (fun ms => decide (ms.id ≠ m)) },
     ThreadState.delM3 t)
  | ThreadState.delM3 t => (incMessageCount db t (-1), ThreadState.doneT)
  | ThreadState.delT1 t =>
    ({ db with tickets := db.tickets.filter (fun tk => decide (tk.id ≠ t)) },
     ThreadState.doneT)
  | ThreadState.doneT => (db, ThreadState.doneT)
  | ThreadState.abortedT c => (db, ThreadState.abortedT c)

/-- A database together with the control states of the in-flight requests. -/
structure Config where
  db : Db
  threads : List ThreadState
deriving DecidableEq, Repr

/-- Run one step of thread `i` (the event loop resuming that coroutine). -/
def stepIndex (c : Config) (i : Nat) : Config :=
  match c.threads[i]? with
  | none => c
  | some ts =>
    let r := stepThread c.db ts
    { db := r.1, threads := c.threads.set i r.2 }

/-- Execute a schedule: the sequence of thread indices the event loop picks.
Sequential execution of the requests is the special case of a schedule that
finishes each thread before starting the next. -/
def runSchedule (c : Config) (sched : List Nat) : Config :=
  sched.foldl stepIndex c

/-- Number of message documents belonging to a ticket. -/
def actualMessageCount (db : Db) (t : Nat) : Nat :=
  (db.messages.filter (fun ms => ms.ticket_id == t)).length

/-- Combined result of `create_and_broadcast_notification`: the notifications
collection, the connection registry and the outcome of the (at most one)
WebSocket send attempt. -/
structure BroadcastResult where
  db : List NotificationDoc
  registry : ConnectionManager
  outcome : SendOutcome

/-- The method `NotificationService.create_and_broadcast_notification`
(notification_service.py 21-83): the document is always inserted; a WebSocket
send is attempted exactly when `manager.is_user_connected(user_id)` holds at
that moment (line 64), going through `send_personal_message`, whose failure
cases only log and deregister the user. -/
def create_and_broadcast_notification (openSock sendOk : Nat → Bool)
    (db : List NotificationDoc) (st : ConnectionManager) (id : Nat)
    (user_id : String) (notification_type title message : String)
    (ticket_id : Option Nat) (priority : String) (now : Nat) :
    BroadcastResult :=
  let doc := newNotificationDoc id user_id notification_type title message
    ticket_id priority now
  let db2 := db ++ [doc]
  if st.is_user_connected user_id then
    let r := ConnectionManager.send_personal_message openSock sendOk st user_id
    { db := db2, registry := r.1, outcome := r.2 }
  else
    { db := db2, registry := st, outcome := SendOutcome.noConnection }

/-- Optional filters of `GET /tickets/` (tickets.py 78-103).  The full-text
`$text` search is an external MongoDB feature and is abstracted as an opaque
predicate on ticket documents. -/
structure TicketQuery where
  status : Option String := none
  priority : Option String := none
  category : Option String := none
  searchPred : Option (TicketDoc → Bool) := none

/-- Whether a ticket document matches the query filter built by `get_tickets`
(tickets.py 88-103): customers additionally get `created_by = their id`. -/
def ticketMatches (q : TicketQuery) (user_id : String) (role : Role)
    (tk : TicketDoc) : Bool :=
  (if role = Role.customer then tk.created_by == user_id else true) &&
  (match q.status with | none => true | some s => tk.status == s) &&
  (match q.priority with | none => true | some s => tk.priority == s) &&
  (match q.category with | none => true | some s => tk.category == s) &&
  (match q.searchPred with | none => true | some p => p tk)

/-- Insertion into a list sorted by `created_at` descending. -/
def insertDesc (tk : TicketDoc) : List TicketDoc → List TicketDoc
  | [] => [tk]
  | x :: xs =>
    if x.created_at ≤ tk.created_at then tk :: x :: xs
    else x :: insertDesc tk xs

/-- The `$sort: {"created_at": -1}` stage of the listing pipeline (an
insertion sort; the claims only depend on the output being a reordering of
the matches by descending `created_at`). -/
def sortTickets : List TicketDoc → List TicketDoc
  | [] => []
  | x :: xs => insertDesc x (sortTickets xs)

/--`PaginatedTickets` of `app/models/ticket.py`, with the listed summaries
abstracted to the underlying ticket documents. -/
structure PaginatedTickets where
  tickets : List TicketDoc
  total : Nat
  page : Nat
  per_page : Nat
  pages : Nat
  has_next : Bool
  has_prev : Bool

/-- The route `GET /tickets/` (`get_tickets`, tickets.py 75-181): count the
matching documents, compute `skip = (page - 1) * per_page` and `pages =
math.ceil(total / per_page)` (for `per_page ≥ 1` Python's ceiling of the true
division equals `(total + per_page - 1) / per_page` in natural division), and
return the `$sort` / `$skip` / `$limit` slice of the matches. -/
def get_tickets (db : Db) (user_id : String) (role : Role) (q : TicketQuery)
    (page per_page : Nat) : PaginatedTickets :=
  let matched := db.tickets.filter (ticketMatches q user_id role)
  let total := matched.length
  let skip := (page - 1) * per_page
  let pages := (total + per_page - 1) / per_page
  { tickets := ((sortTickets matched).drop skip).take per_page
    total := total, page := page, per_page := per_page, pages := pages
    has_next := decide (page < pages), has_prev := decide (1 < page) }

/-- HTTP status of `GET /tickets/{id}` (`get_ticket`, tickets.py 184-253)
for a well-formed id: 403 when `check_ticket_permissions` denies, otherwise
404 when the aggregation finds nothing, otherwise 200.  `PUT /tickets/{id}`
(`update_ticket`, tickets.py 256-332) guards with the same permission check
before writing. -/
def get_ticket_status (db : Db) (user_id : String) (role : Role) (t : Nat) :
    Nat :=
  if check_ticket_permissions (findTicket db t) user_id role then
    if (findTicket db t).isSome then 200 else 404
  else 403

/-- User document of the `users` collection as written by `register_user`
(auth.py 51-59), restricted to the fields that route reads or writes. -/
structure AuthUserDoc where
  id : Nat
  username : String
  email : String
  password_hash : String
  status : String
deriving DecidableEq, Repr

/-- Outcome of `POST /auth/register`. -/
inductive RegisterOutcome where
  | created (id : Nat)
  | badRequest (detail : String)
deriving DecidableEq, Repr

/-- The route `POST /auth/register` (`register_user`, auth.py 23-64): a
`find_one` on `email == e or username == u` decides the conflict; the detail
compares the requested email against the email of the user that `find_one`
returned; otherwise the new user is inserted with `status = "active"`. -/
def register_user (users : List AuthUserDoc) (username email : String)
    (password_hash : String) (newId : Nat) :
    List AuthUserDoc × RegisterOutcome :=
  match users.find? (fun u => u.email == email || u.username == username) with
  | some existing =>
    if existing.email = email then
      (users, RegisterOutcome.badRequest "Email already registered")
    else
      (users, RegisterOutcome.badRequest "Username already taken")
  | none =>
    (users ++ [{ id := newId, username := username, email := email
                 password_hash := password_hash, status := "active" }],
     RegisterOutcome.created newId)

/-- MongoDB `update_one`: rewrite the first element matching the filter. -/
def updateFirst {α : Type} (p : α → Bool) (f : α → α) : List α → List α
  | [] => []
  | x :: xs => if p x then f x :: xs else x :: updateFirst p f xs

/-- MongoDB `delete_one`: remove the first element matching the filter. -/
def deleteFirst {α : Type} (p : α → Bool) : List α → List α
  | [] => []
  | x :: xs => if p x then xs else x :: deleteFirst p xs

/-- The route `PUT /notifications/{id}/read` (`mark_notification_read`,
notifications.py 175-208): the update filter is
`{"_id": nid, "user_id": caller}`; the boolean reports `matched_count > 0`
(404 is raised exactly when it is false). -/
def mark_notification_read (db : List NotificationDoc) (nid : Nat)
    (uid : String) (now : Nat) : List NotificationDoc × Bool :=
  (updateFirst (fun n => n.id == nid && n.user_id == uid)
      (fun n => { n with is_read := true, read_at := some now }) db,
   (db.find? (fun n => n.id == nid && n.user_id == uid)).isSome)

/-- The route `POST /notifications/bulk-update` (`bulk_update_notifications`,
notifications.py 263-285): an `update_many` whose filter is
`{"_id": {"$in": ids}, "user_id": caller}`; `read_at` is set only when
marking as read. -/
def bulk_update_notifications (db : List NotificationDoc) (ids : List Nat)
    (uid : String) (is_read : Bool) (now : Nat) : List NotificationDoc :=
  db.map (fun n =>
    if ids.contains n.id && n.user_id == uid then
      if is_read then { n with is_read := is_read, read_at := some now }
      else { n with is_read := is_read }
    else n)

/-- The route `DELETE /notifications/{id}` (`delete_notification`,
notifications.py 288-313): a `delete_one` with filter
`{"_id": nid, "user_id": caller}`; the boolean reports `deleted_count > 0`
(404 is raised exactly when it is false). -/
def delete_notification (db : List NotificationDoc) (nid : Nat)
    (uid : String) : List NotificationDoc × Bool :=
  (deleteFirst (fun n => n.id == nid && n.user_id == uid) db,
   (db.find? (fun n => n.id == nid && n.user_id == uid)).isSome)

/-- Well-formedness of the registry: the admin set only names users with an
active connection, the role map and the connection map have the same keys,
and entries are duplicate-free (the embedding of dict/set semantics). -/
def GoodState (st : ConnectionManager) : Prop :=
  (∀ u ∈ st.admin_connections, u ∈ keys st.active_connections) ∧
  (∀ u, u ∈ keys st.user_roles ↔ u ∈ keys st.active_connections) ∧
  (keys st.active_connections).Nodup ∧
  st.admin_connections.Nodup ∧
  (keys st.user_roles).Nodup

theorem mapLookup_mapInsert_self {β : Type} (k : String) (v : β)
    (m : List (String × β)) : mapLookup k (mapInsert k v m) = some v := by
  simp [mapInsert, mapLookup]

theorem mapLookup_mapErase_self {β : Type} (k : String)
    (m : List (String × β)) : mapLookup k (mapErase k m) = none := by
  induction m with
  | nil => rfl
  | cons p rest ih =>
    by_cases h : p.1 = k
    · simpa [mapErase, h] using ih
    · simpa [mapErase, mapLookup, h] using ih

theorem countKey_mapInsert_self {β : Type} (k : String) (v : β)
    (m : List (String × β)) : countKey k (mapInsert k v m) = 1 := by
  have h : (m.filter (fun p => decide (p.1 ≠ k))).filter
      (fun p => decide (p.1 = k)) = [] := by
    induction m with
    | nil => rfl
    | cons p rest ih =>
      by_cases hpk : p.1 = k
      · simp [hpk]
      · simp [hpk]
  simp [countKey, mapInsert, h]

theorem mem_keys_filter_ne {β : Type} (x k : String)
    (m : List (String × β)) :
    x ∈ keys (m.filter (fun p => decide (p.1 ≠ k))) ↔
      x ∈ keys m ∧ x ≠ k := by
  simp only [keys, List.mem_map, List.mem_filter, decide_eq_true_eq]
  constructor
  · rintro ⟨p, ⟨hp, hne⟩, rfl⟩
    exact ⟨⟨p, hp, rfl⟩, hne⟩
  · rintro ⟨⟨p, hp, rfl⟩, hne⟩
    exact ⟨p, ⟨hp, hne⟩, rfl⟩

theorem mem_keys_mapInsert {β : Type} (x k : String) (v : β)
    (m : List (String × β)) :
    x ∈ keys (mapInsert k v m) ↔ x = k ∨ x ∈ keys m := by
  simp only [mapInsert, keys, List.map_cons, List.mem_cons]
  constructor
  · rintro (h | h)
    · exact Or.inl h
    · exact Or.inr ((mem_keys_filter_ne x k m).1 h).1
  · rintro (h | h)
    · exact Or.inl h
    · by_cases hxk : x = k
      · exact Or.inl hxk
      · exact Or.inr ((mem_keys_filter_ne x k m).2 ⟨h, hxk⟩)

theorem mem_keys_mapErase {β : Type} (x k : String)
    (m : List (String × β)) :
    x ∈ keys (mapErase k m) ↔ x ∈ keys m ∧ x ≠ k :=
  mem_keys_filter_ne x k m

theorem nodup_keys_filter {β : Type} (p : String × β → Bool)
    (m : List (String × β)) (h : (keys m).Nodup) :
    (keys (m.filter p)).Nodup :=
  List.Nodup.sublist (List.Sublist.map Prod.fst (List.filter_sublist m)) h

theorem nodup_keys_mapInsert {β : Type} (k : String) (v : β)
    (m : List (String × β)) (h : (keys m).Nodup) :
    (keys (mapInsert k v m)).Nodup := by
  refine List.nodup_cons.2 ⟨?_, nodup_keys_filter _ m h⟩
  intro hk
  exact ((mem_keys_filter_ne k k m).1 hk).2 rfl

theorem mem_setAdd (x u : String) (s : List String) :
    x ∈ setAdd u s ↔ x = u ∨ x ∈ s := by
  by_cases h : u ∈ s
  · simp only [setAdd, if_pos h]
    constructor
    · exact Or.inr
    · rintro (rfl | hx)
      · exact h
      · exact hx
  · simp [setAdd, if_neg h]

theorem nodup_setAdd (u : String) (s : List String) (h : s.Nodup) :
    (setAdd u s).Nodup := by
  by_cases hu : u ∈ s
  · simpa [setAdd, hu] using h
  · simp only [setAdd, if_neg hu]
    exact List.nodup_cons.2 ⟨hu, h⟩

theorem mem_setRemove (x u : String) (s : List String) :
    x ∈ setRemove u s ↔ x ∈ s ∧ x ≠ u := by
  simp [setRemove]

theorem nodup_setRemove (u : String) (s : List String) (h : s.Nodup) :
    (setRemove u s).Nodup :=
  List.Nodup.sublist (List.filter_sublist s) h

theorem mapLookup_isSome_iff_mem_keys {β : Type} (k : String)
    (m : List (String × β)) :
    (mapLookup k m).isSome = true ↔ k ∈ keys m := by
  induction m with
  | nil => simp [mapLookup, keys]
  | cons p rest ih =>
    by_cases h : p.1 = k
    · simp [mapLookup, keys, h]
    · simp only [mapLookup, if_neg h, keys, List.map_cons, List.mem_cons]
      rw [ih]
      simp only [keys]
      constructor
      · exact Or.inr
      · rintro (rfl | hx)
        · exact absurd rfl h
        · exact hx

/-- Claim C1: `register_connection` is last-write-wins.  After any call, the
user's entry in `active_connections` is exactly the new websocket (and it is
the user's only binding, so each user maps to at most one live connection),
`user_roles` holds the new role, and this holds regardless of whether the user
was previously connected; when the user was connected, the replaced socket is
the one the method attempts to close best-effort first. -/
theorem registry_last_write_wins (st : ConnectionManager) (ws : Nat)
    (uid : String) (role : Role) :
    mapLookup uid (st.register_connection ws uid role).active_connections =
      some ws ∧
    countKey uid (st.register_connection ws uid role).active_connections = 1 ∧
    mapLookup uid (st.register_connection ws uid role).user_roles =
      some role ∧
    (∀ old, mapLookup uid st.active_connections = some old →
      st.closedByRegister uid = [old]) := by
  refine ⟨?_, ?_, ?_, ?_⟩
  · exact mapLookup_mapInsert_self uid ws st.active_connections
  · exact countKey_mapInsert_self uid ws st.active_connections
  · exact mapLookup_mapInsert_self uid role st.user_roles
  · intro old h
    simp [ConnectionManager.closedByRegister, h]

theorem registry_last_write_wins_witness :
    ConnectionManager.closedByRegister ⟨[("u", 5)], [], []⟩ "u" = [5] :=
  (registry_last_write_wins ⟨[("u", 5)], [], []⟩ 7 "u" Role.customer).2.2.2 5
    (by decide)

/-- Claim C8: `disconnect` is keyed by the user id alone: after
`disconnect(u)` the user is not connected, whatever socket was registered.
In particular, in the replacement sequence `register_connection(w1, u)`,
`register_connection(w2, u)`, `disconnect(u)` (what happens when the replaced
endpoint's `finally` cleanup runs after the replacement), the fresh connection
`w2` is removed from the registry although only `w1` was ever closed. -/
theorem disconnect_keyed_by_user_id (st : ConnectionManager) (u : String)
    (w1 w2 : Nat) (r1 r2 : Role) :
    (st.disconnect u).is_user_connected u = false ∧
    (w1 ≠ w2 →
      mapLookup u ((ConnectionManager.empty.register_connection w1 u
        r1).register_connection w2 u r2).active_connections = some w2 ∧
      (((ConnectionManager.empty.register_connection w1 u
        r1).register_connection w2 u r2).disconnect u).is_user_connected u =
        false ∧
      ConnectionManager.empty.closedByRegister u ++
        (ConnectionManager.empty.register_connection w1 u
          r1).closedByRegister u = [w1] ∧
      w2 ∉ ConnectionManager.empty.closedByRegister u ++
        (ConnectionManager.empty.register_connection w1 u
          r1).closedByRegister u) := by
  have hdisc : ∀ s : ConnectionManager, (s.disconnect u).is_user_connected u
      = false := by
    intro s
    simp [ConnectionManager.is_user_connected, ConnectionManager.disconnect,
      mapLookup_mapErase_self]
  refine ⟨hdisc st, fun hne => ?_⟩
  have hclosed : ConnectionManager.empty.closedByRegister u ++
      (ConnectionManager.empty.register_connection w1 u
        r1).closedByRegister u = [w1] := by
    simp [ConnectionManager.closedByRegister, ConnectionManager.empty,
      ConnectionManager.register_connection, mapLookup,
      mapLookup_mapInsert_self, mapInsert]
  refine ⟨mapLookup_mapInsert_self u w2 _, hdisc _, hclosed, ?_⟩
  rw [hclosed]
  simp [hne.symm]

theorem goodState_empty : GoodState ConnectionManager.empty := by
  refine ⟨?_, ?_, ?_, ?_, ?_⟩ <;> simp [ConnectionManager.empty, keys]

theorem goodState_register (st : ConnectionManager) (ws : Nat) (uid : String)
    (role : Role) (h : GoodState st) :
    GoodState (st.register_connection ws uid role) := by
  obtain ⟨hsub, hkeys, hna, hnad, hnr⟩ := h
  refine ⟨?_, ?_, ?_, ?_, ?_⟩
  · intro u hu
    simp only [ConnectionManager.register_connection] at hu ⊢
    rw [mem_keys_mapInsert]
    split at hu
    · rcases (mem_setAdd u uid st.admin_connections).1 hu with rfl | h2
      · exact Or.inl rfl
      · exact Or.inr (hsub u h2)
    · exact Or.inr (hsub u hu)
  · intro u
    simp only [ConnectionManager.register_connection]
    rw [mem_keys_mapInsert, mem_keys_mapInsert]
    exact or_congr Iff.rfl (hkeys u)
  · exact nodup_keys_mapInsert uid ws st.active_connections hna
  · simp only [ConnectionManager.register_connection]
    split
    · exact nodup_setAdd uid st.admin_connections hnad
    · exact hnad
  · exact nodup_keys_mapInsert uid role st.user_roles hnr

theorem goodState_disconnect (st : ConnectionManager) (uid : String)
    (h : GoodState st) : GoodState (st.disconnect uid) := by
  obtain ⟨hsub, hkeys, hna, hnad, hnr⟩ := h
  refine ⟨?_, ?_, ?_, ?_, ?_⟩
  · intro u hu
    simp only [ConnectionManager.disconnect] at hu ⊢
    rcases (mem_setRemove u uid st.admin_connections).1 hu with ⟨h1, h2⟩
    exact (mem_keys_mapErase u uid st.active_connections).2 ⟨hsub u h1, h2⟩
  · intro u
    simp only [ConnectionManager.disconnect]
    rw [mem_keys_mapErase, mem_keys_mapErase]
    exact and_congr (hkeys u) Iff.rfl
  · exact nodup_keys_filter _ st.active_connections hna
  · exact nodup_setRemove uid st.admin_connections hnad
  · exact nodup_keys_filter _ st.user_roles hnr

theorem goodState_foldl_disconnect (l : List String) :
    ∀ st : ConnectionManager, GoodState st →
      GoodState (l.foldl ConnectionManager.disconnect st) := by
  induction l with
  | nil => exact fun st h => h
  | cons u rest ih => exact fun st h => ih _ (goodState_disconnect st u h)

theorem goodState_send_personal (o s : Nat → Bool) (st : ConnectionManager)
    (uid : String) (h : GoodState st) :
    GoodState (ConnectionManager.send_personal_message o s st uid).1 := by
  unfold ConnectionManager.send_personal_message
  cases hm : mapLookup uid st.active_connections with
  | none => exact h
  | some ws =>
    by_cases ho : o ws
    · by_cases hs : s ws
      · simpa [ho, hs] using h
      · simpa [ho, hs] using goodState_disconnect st uid h
    · simpa [ho] using goodState_disconnect st uid h

theorem goodState_applyEvent (st : ConnectionManager) (e : RegistryEvent)
    (h : GoodState st) : GoodState (applyEvent st e) := by
  cases e with
  | registerEv ws uid role => exact goodState_register st ws uid role h
  | disconnectEv uid => exact goodState_disconnect st uid h
  | sendPersonalEv o s uid => exact goodState_send_personal o s st uid h
  | broadcastAdminsEv o s =>
    exact goodState_foldl_disconnect _ st h
  | broadcastAllEv o s =>
    exact goodState_foldl_disconnect _ st h

theorem goodState_runEvents (evs : List RegistryEvent) :
    GoodState (runEvents evs) := by
  have haux : ∀ (l : List RegistryEvent) (st : ConnectionManager),
      GoodState st → GoodState (l.foldl applyEvent st) := by
    intro l
    induction l with
    | nil => exact fun st h => h
    | cons e rest ih => exact fun st h => ih _ (goodState_applyEvent st e h)
  exact haux evs ConnectionManager.empty goodState_empty

/-- Claim C9: in every registry state reachable by any sequence of
`register_connection`, `disconnect` and the cleanup inside
`send_personal_message`, `broadcast_to_admins` and `broadcast_to_all`,
the admin set is contained in the keys of `active_connections`, the keys of
`user_roles` coincide with the keys of `active_connections`, and the
`customer_connections` count reported by `get_connection_info` (total minus
admins) is non-negative. -/
theorem registry_invariant (evs : List RegistryEvent) :
    (∀ u ∈ (runEvents evs).admin_connections,
      u ∈ keys (runEvents evs).active_connections) ∧
    (∀ u, u ∈ keys (runEvents evs).user_roles ↔
      u ∈ keys (runEvents evs).active_connections) ∧
    0 ≤ (runEvents evs).get_connection_info.customer_connections := by
  obtain ⟨hsub, hkeys, hna, hnad, hnr⟩ := goodState_runEvents evs
  refine ⟨hsub, hkeys, ?_⟩
  have hlen : (runEvents evs).admin_connections.length ≤
      (runEvents evs).active_connections.length := by
    have hle := (List.subperm_of_subset hnad hsub).length_le
    simpa [keys] using hle
  simp only [ConnectionManager.get_connection_info]
  omega

theorem registry_invariant_witness :
    "a" ∈ keys (runEvents [RegistryEvent.registerEv 1 "a"
      Role.admin]).active_connections :=
  (registry_invariant [RegistryEvent.registerEv 1 "a" Role.admin]).1 "a"
    (by decide)

theorem disconnect_keyed_by_user_id_witness :
    mapLookup "u" ((ConnectionManager.empty.register_connection 1 "u"
      Role.customer).register_connection 2 "u"
      Role.customer).active_connections = some 2 :=
  ((disconnect_keyed_by_user_id ConnectionManager.empty "u" 1 2
    Role.customer Role.customer).2 (by decide)).1

/-- Claim C2: notification delivery is send-if-connected with no delivery
state.  The document is inserted whatever the connection state (and the
inserted document is the same in both cases, so no delivery status is
recorded); a WebSocket send is attempted exactly when the target user has a
registered connection at that moment; and on a failed send or a
no-longer-open socket the only effect is deregistration of the user (no
retry, the insert is never rolled back). -/
theorem notification_send_if_connected (o s : Nat → Bool)
    (db : List NotificationDoc) (st : ConnectionManager) (id : Nat)
    (uid nty title msg : String) (tid : Option Nat) (pri : String)
    (now : Nat) :
    (create_and_broadcast_notification o s db st id uid nty title msg tid
      pri now).db =
      db ++ [newNotificationDoc id uid nty title msg tid pri now] ∧
    ((create_and_broadcast_notification o s db st id uid nty title msg tid
      pri now).outcome ≠ SendOutcome.noConnection ↔
      st.is_user_connected uid = true) ∧
    ((create_and_broadcast_notification o s db st id uid nty title msg tid
      pri now).outcome = SendOutcome.droppedNotOpen ∨
     (create_and_broadcast_notification o s db st id uid nty title msg tid
      pri now).outcome = SendOutcome.droppedError →
      (create_and_broadcast_notification o s db st id uid nty title msg tid
        pri now).registry = st.disconnect uid) ∧
    ((create_and_broadcast_notification o s db st id uid nty title msg tid
      pri now).registry = st ∨
     (create_and_broadcast_notification o s db st id uid nty title msg tid
      pri now).registry = st.disconnect uid) := by
  by_cases hc : st.is_user_connected uid = true
  · have hsome := hc
    simp only [ConnectionManager.is_user_connected] at hsome
    obtain ⟨ws, hws⟩ := Option.isSome_iff_exists.mp hsome
    simp only [create_and_broadcast_notification,
      ConnectionManager.send_personal_message, hc, if_true, hws]
    by_cases ho : o ws = true
    · by_cases hs : s ws = true
      · simp [ho, hs, hc]
      · simp [ho, hs, hc]
    · simp [ho, hc]
  · have hfalse : st.is_user_connected uid = false := by
      cases h : st.is_user_connected uid
      · rfl
      · exact absurd h hc
    simp [create_and_broadcast_notification, hfalse]

theorem notification_send_if_connected_witness :
    (create_and_broadcast_notification (fun _ => false) (fun _ => true) []
      ⟨[("u", 3)], [], [("u", Role.customer)]⟩ 9 "u" "system_alert" "t" "m"
      none "medium" 0).registry =
      ConnectionManager.disconnect ⟨[("u", 3)], [], [("u", Role.customer)]⟩
        "u" :=
  (notification_send_if_connected (fun _ => false) (fun _ => true) []
    ⟨[("u", 3)], [], [("u", Role.customer)]⟩ 9 "u" "system_alert" "t" "m"
    none "medium" 0).2.2.1 (Or.inl (by decide))

/-- Claim C7: every frame the server sends over the WebSocket channel is a
JSON object tagged with a `type` field whose value is one of `notification`,
`ticket_update`, `new_ticket`, `pong`, `connection_established`, `error`,
`notification_read_confirmed`, across every send path of the connection
manager and the websocket endpoint. -/
theorem server_frames_typed (f : Json) (h : ServerFrame f) :
    ∃ t, f.lookupField "type" = some (Json.str t) ∧
      t ∈ ["notification", "ticket_update", "new_ticket", "pong",
        "connection_established", "error", "notification_read_confirmed"] := by
  cases h with
  | notif d =>
    exact ⟨"notification",
      by simp [notificationFrame, Json.lookupField, mapLookup], by simp⟩
  | ticketUpdate d =>
    exact ⟨"ticket_update",
      by simp [ticketUpdateFrame, Json.lookupField, mapLookup], by simp⟩
  | newTicket d =>
    exact ⟨"new_ticket",
      by simp [newTicketFrame, Json.lookupField, mapLookup], by simp⟩
  | error m c =>
    exact ⟨"error",
      by simp [errorFrame, Json.lookupField, mapLookup], by simp⟩
  | established u n r m =>
    exact ⟨"connection_established",
      by simp [connectionEstablishedFrame, Json.lookupField, mapLookup],
      by simp⟩
  | pong ts =>
    exact ⟨"pong", by simp [pongFrame, Json.lookupField, mapLookup], by simp⟩
  | readConfirmed nid =>
    exact ⟨"notification_read_confirmed",
      by simp [notificationReadConfirmedFrame, Json.lookupField, mapLookup],
      by simp⟩

theorem server_frames_typed_witness :
    ∃ t, (pongFrame Json.null).lookupField "type" = some (Json.str t) ∧
      t ∈ ["notification", "ticket_update", "new_ticket", "pong",
        "connection_established", "error", "notification_read_confirmed"] :=
  server_frames_typed (pongFrame Json.null) (ServerFrame.pong Json.null)

theorem mem_insertDesc (a tk : TicketDoc) (l : List TicketDoc) :
    a ∈ insertDesc tk l ↔ a = tk ∨ a ∈ l := by
  induction l with
  | nil => simp [insertDesc]
  | cons x xs ih =>
    by_cases h : x.created_at ≤ tk.created_at
    · simp [insertDesc, h]
    · simp only [insertDesc, if_neg h, List.mem_cons, ih]
      tauto

theorem mem_sortTickets (a : TicketDoc) (l : List TicketDoc) :
    a ∈ sortTickets l ↔ a ∈ l := by
  induction l with
  | nil => simp [sortTickets]
  | cons x xs ih => simp [sortTickets, mem_insertDesc, ih]

theorem customer_perm_iff (otk : Option TicketDoc) (uid : String) :
    check_ticket_permissions otk uid Role.customer = true ↔
      ∃ tk, otk = some tk ∧ tk.created_by = uid := by
  cases otk with
  | none => simp [check_ticket_permissions]
  | some tk => simp [check_ticket_permissions]

/-- Claim C4: ticket access is role-guarded.  A customer passes
`check_ticket_permissions` exactly for an existing ticket they created (a
failing check makes `GET /tickets/{id}` and `PUT /tickets/{id}` answer 403),
admins and agents pass the check for every existing ticket, the check fails
for a missing ticket, and the list query of `GET /tickets/` only ever returns
a customer their own tickets. -/
theorem ticket_access_role_guarded (db : Db) (uid : String)
    (q : TicketQuery) (page per_page t : Nat) :
    (∀ otk, check_ticket_permissions otk uid Role.customer = true ↔
      ∃ tk, otk = some tk ∧ tk.created_by = uid) ∧
    (∀ tk, check_ticket_permissions (some tk) uid Role.admin = true ∧
      check_ticket_permissions (some tk) uid Role.agent = true) ∧
    (∀ role, check_ticket_permissions none uid role = false) ∧
    (∀ tk ∈ (get_tickets db uid Role.customer q page per_page).tickets,
      tk.created_by = uid) ∧
    (get_ticket_status db uid Role.customer t = 403 ↔
      ¬∃ tk, findTicket db t = some tk ∧ tk.created_by = uid) := by
  refine ⟨fun otk => customer_perm_iff otk uid, ?_, ?_, ?_, ?_⟩
  · intro tk
    exact ⟨by simp [check_ticket_permissions], by simp [check_ticket_permissions]⟩
  · intro role
    rfl
  · intro tk hmem
    have h1 : tk ∈ sortTickets
        (db.tickets.filter (ticketMatches q uid Role.customer)) :=
      List.mem_of_mem_drop (List.mem_of_mem_take hmem)
    have h2 : tk ∈ db.tickets.filter (ticketMatches q uid Role.customer) :=
      (mem_sortTickets tk _).1 h1
    have h3 : ticketMatches q uid Role.customer tk = true :=
      (List.mem_filter.1 h2).2
    simp [ticketMatches, Bool.and_eq_true, beq_iff_eq] at h3
    exact h3.1.1.1.1
  · by_cases hp : check_ticket_permissions (findTicket db t) uid
      Role.customer = true
    · have hstatus : get_ticket_status db uid Role.customer t ≠ 403 := by
        unfold get_ticket_status
        rw [if_pos hp]
        by_cases he : (findTicket db t).isSome = true
        · simp [he]
        · simp [he]
      constructor
      · intro h403
        exact absurd h403 hstatus
      · intro hno
        exact absurd ((customer_perm_iff (findTicket db t) uid).1 hp) hno
    · have hfalse : check_ticket_permissions (findTicket db t) uid
          Role.customer = false := by
        cases h : check_ticket_permissions (findTicket db t) uid Role.customer
        · rfl
        · exact absurd h hp
      constructor
      · intro _
        intro hex
        exact hp ((customer_perm_iff (findTicket db t) uid).2 hex)
      · intro _
        unfold get_ticket_status
        rw [if_neg (by simp [hfalse])]

theorem ticket_access_role_guarded_witness :
    TicketDoc.created_by ⟨1, "u", "open", "medium", "general", 0, 0⟩ = "u" :=
  (ticket_access_role_guarded
    ⟨[], [⟨1, "u", "open", "medium", "general", 0, 0⟩], [], []⟩
    "u" {} 1 20 1).2.2.2.1
    ⟨1, "u", "open", "medium", "general", 0, 0⟩ (by decide)

/-- Claim C5: pagination arithmetic of the ticket list.  For `page ≥ 1` and
`1 ≤ per_page ≤ 100`, `pages` is the ceiling of `total / per_page`
(characterised as the least `k` with `total ≤ per_page * k`, via the
equivalence `total ≤ per_page * k ↔ pages ≤ k`), `has_next = (page < pages)`,
`has_prev = (page > 1)`, the returned slice is the sorted matches after
skipping exactly `(page - 1) * per_page` documents, and at most `per_page`
tickets are returned. -/
theorem ticket_pagination_arithmetic (db : Db) (uid : String) (role : Role)
    (q : TicketQuery) (page per_page : Nat) (_hpage : 1 ≤ page)
    (hpp1 : 1 ≤ per_page) (hpp2 : per_page ≤ 100) :
    (∀ k : Nat,
      ((get_tickets db uid role q page per_page).total ≤ per_page * k ↔
        (get_tickets db uid role q page per_page).pages ≤ k)) ∧
    ((get_tickets db uid role q page per_page).has_next =
      decide (page < (get_tickets db uid role q page per_page).pages)) ∧
    ((get_tickets db uid role q page per_page).has_prev =
      decide (1 < page)) ∧
    ((get_tickets db uid role q page per_page).tickets =
      ((sortTickets (db.tickets.filter (ticketMatches q uid role))).drop
        ((page - 1) * per_page)).take per_page) ∧
    ((get_tickets db uid role q page per_page).tickets.length ≤ per_page) := by
  refine ⟨?_, rfl, rfl, rfl, ?_⟩
  · intro k
    have htotal : (get_tickets db uid role q page per_page).total =
        (db.tickets.filter (ticketMatches q uid role)).length := rfl
    have hpages : (get_tickets db uid role q page per_page).pages =
        ((db.tickets.filter (ticketMatches q uid role)).length + per_page - 1)
          / per_page := rfl
    rw [htotal, hpages,
      Nat.div_le_iff_le_mul_add_pred (show 0 < per_page by omega)]
    omega
  · have hticks : (get_tickets db uid role q page per_page).tickets =
        ((sortTickets (db.tickets.filter (ticketMatches q uid role))).drop
          ((page - 1) * per_page)).take per_page := rfl
    rw [hticks]
    simp [List.length_take]

theorem ticket_pagination_arithmetic_witness :
    (get_tickets ⟨[], [⟨1, "u", "open", "medium", "general", 0, 0⟩], [], []⟩
      "u" Role.admin {} 1 20).tickets.length ≤ 20 :=
  (ticket_pagination_arithmetic
    ⟨[], [⟨1, "u", "open", "medium", "general", 0, 0⟩], [], []⟩ "u"
    Role.admin {} 1 20 (by decide) (by decide) (by decide)).2.2.2.2

/-- Counterexample to claim C6 as stated: with an existing user `bob` (email
`b@x`) registered before an existing user `carol` (email `a@x`), a request
for username `bob` with email `a@x` matches `bob` first, so the route answers
`Username already taken` although a user with the requested email exists —
the claim required `Email already registered` whenever the email matches. -/
theorem register_user_detail_counterexample :
    (∃ u ∈ [(⟨1, "bob", "b@x", "h1", "active"⟩ : AuthUserDoc),
        ⟨2, "carol", "a@x", "h2", "active"⟩], u.email = "a@x") ∧
    (register_user [⟨1, "bob", "b@x", "h1", "active"⟩,
        ⟨2, "carol", "a@x", "h2", "active"⟩] "bob" "a@x" "h" 3).2 =
      RegisterOutcome.badRequest "Username already taken" ∧
    (register_user [⟨1, "bob", "b@x", "h1", "active"⟩,
        ⟨2, "carol", "a@x", "h2", "active"⟩] "bob" "a@x" "h" 3).2 ≠
      RegisterOutcome.badRequest "Email already registered" := by
  decide

/-- Claim C6 (amended): `register_user` answers 400 exactly when some user
already holds the requested email or username, and in that case the users
collection is unchanged and the detail is chosen by the first matching user
that `find_one` returns — `Email already registered` when that user's email
equals the requested one, `Username already taken` otherwise (not by whether
any user holds the email); without a conflict exactly one document is
inserted, with `status = "active"`. -/
theorem register_user_uniqueness (users : List AuthUserDoc)
    (username email hash : String) (newId : Nat) :
    ((∃ u ∈ users, u.email = email ∨ u.username = username) ↔
      ∃ d, (register_user users username email hash newId).2 =
        RegisterOutcome.badRequest d) ∧
    ((∃ u ∈ users, u.email = email ∨ u.username = username) →
      (register_user users username email hash newId).1 = users ∧
      ∃ u0, users.find? (fun u => u.email == email ||
          u.username == username) = some u0 ∧
        (register_user users username email hash newId).2 =
          RegisterOutcome.badRequest (if u0.email = email then
            "Email already registered" else "Username already taken")) ∧
    ((∀ u ∈ users, u.email ≠ email ∧ u.username ≠ username) →
      (register_user users username email hash newId).1 =
        users ++ [⟨newId, username, email, hash, "active"⟩] ∧
      (register_user users username email hash newId).2 =
        RegisterOutcome.created newId) := by
  cases hf : users.find? (fun u => u.email == email ||
      u.username == username) with
  | none =>
    have hnone := List.find?_eq_none.1 hf
    have hno : ¬∃ u ∈ users, u.email = email ∨ u.username = username := by
      rintro ⟨u, hu, hor⟩
      refine hnone u hu ?_
      simpa [Bool.or_eq_true, beq_iff_eq] using hor
    have hreg : register_user users username email hash newId =
        (users ++ [⟨newId, username, email, hash, "active"⟩],
         RegisterOutcome.created newId) := by
      unfold register_user
      rw [hf]
    refine ⟨?_, ?_, ?_⟩
    · constructor
      · intro h
        exact absurd h hno
      · rintro ⟨d, hd⟩
        rw [hreg] at hd
        exact absurd hd (by simp)
    · intro h
      exact absurd h hno
    · intro _
      rw [hreg]
      exact ⟨rfl, rfl⟩
  | some u0 =>
    have hmem := List.mem_of_find?_eq_some hf
    have hpred : u0.email = email ∨ u0.username = username := by
      simpa [Bool.or_eq_true, beq_iff_eq] using List.find?_some hf
    have hreg : register_user users username email hash newId =
        (users, RegisterOutcome.badRequest (if u0.email = email then
          "Email already registered" else "Username already taken")) := by
      unfold register_user
      rw [hf]
      by_cases he : u0.email = email
      · simp [he]
      · simp [he]
    refine ⟨?_, ?_, ?_⟩
    · exact ⟨fun _ => ⟨_, by rw [hreg]⟩, fun _ => ⟨u0, hmem, hpred⟩⟩
    · intro _
      exact ⟨by rw [hreg], u0, rfl, by rw [hreg]⟩
    · intro hall
      rcases hpred with he | hn
      · exact absurd he (hall u0 hmem).1
      · exact absurd hn (hall u0 hmem).2

theorem register_user_uniqueness_witness :
    (register_user [(⟨1, "bob", "b@x", "h1", "active"⟩ : AuthUserDoc)]
      "carol" "c@x" "h" 2).1 =
      [⟨1, "bob", "b@x", "h1", "active"⟩,
       ⟨2, "carol", "c@x", "h", "active"⟩] :=
  ((register_user_uniqueness [⟨1, "bob", "b@x", "h1", "active"⟩] "carol"
    "c@x" "h" 2).2.2 (by decide)).1

theorem filter_updateFirst {α : Type} (p q : α → Bool) (f : α → α)
    (h1 : ∀ a, p a = true → q a = false)
    (h2 : ∀ a, p a = true → q (f a) = false) :
    ∀ l : List α, (updateFirst p f l).filter q = l.filter q := by
  intro l
  induction l with
  | nil => rfl
  | cons x xs ih =>
    by_cases hp : p x = true
    · simp [updateFirst, hp, List.filter_cons, h1 x hp, h2 x hp]
    · simp only [updateFirst, if_neg hp, List.filter_cons]
      rw [ih]

theorem filter_deleteFirst {α : Type} (p q : α → Bool)
    (h1 : ∀ a, p a = true → q a = false) :
    ∀ l : List α, (deleteFirst p l).filter q = l.filter q := by
  intro l
  induction l with
  | nil => rfl
  | cons x xs ih =>
    by_cases hp : p x = true
    · simp [deleteFirst, hp, List.filter_cons, h1 x hp]
    · simp only [deleteFirst, if_neg hp, List.filter_cons]
      rw [ih]

theorem filter_map_invariant {α : Type} (g : α → α) (q : α → Bool)
    (h1 : ∀ a, q a = true → g a = a) (h2 : ∀ a, q (g a) = q a) :
    ∀ l : List α, (l.map g).filter q = l.filter q := by
  intro l
  induction l with
  | nil => rfl
  | cons x xs ih =>
    by_cases hq : q x = true
    · simp only [List.map_cons, List.filter_cons, h2 x, hq, h1 x hq, if_pos]
      rw [ih]
    · have hqf : q x = false := by
        cases h : q x
        · rfl
        · exact absurd h hq
      simp only [List.map_cons, List.filter_cons, h2 x, hqf]
      simpa using ih

theorem find?_isSome_iff_exists {α : Type} (p : α → Bool) (l : List α) :
    (l.find? p).isSome = true ↔ ∃ x ∈ l, p x = true := by
  induction l with
  | nil => simp [List.find?]
  | cons x xs ih =>
    by_cases hp : p x = true
    · simp [List.find?, hp]
    · simp only [List.find?, hp, Bool.false_eq_true, if_false, ih,
        List.mem_cons]
      constructor
      · rintro ⟨y, hy, hpy⟩
        exact ⟨y, Or.inr hy, hpy⟩
      · rintro ⟨y, hy | hy, hpy⟩
        · subst hy
          exact absurd hpy hp
        · exact ⟨y, hy, hpy⟩

/-- Claim C10: notification mutations by a (non-admin) caller are scoped to
that caller.  Each of `mark_notification_read`, `bulk_update_notifications`
and `delete_notification` filters on `user_id = caller`, so every
notification belonging to any other user is left exactly as it was, and
`mark_notification_read` / `delete_notification` report no match (HTTP 404)
exactly when no notification with the given id belongs to the caller — in
particular when it exists but belongs to someone else. -/
theorem notification_mutations_scoped (db : List NotificationDoc) (nid : Nat)
    (uid : String) (now : Nat) (ids : List Nat) (flag : Bool) :
    ((mark_notification_read db nid uid now).1.filter
        (fun n => !(n.user_id == uid)) =
      db.filter (fun n => !(n.user_id == uid))) ∧
    ((mark_notification_read db nid uid now).2 = true ↔
      ∃ n ∈ db, n.id = nid ∧ n.user_id = uid) ∧
    ((bulk_update_notifications db ids uid flag now).filter
        (fun n => !(n.user_id == uid)) =
      db.filter (fun n => !(n.user_id == uid))) ∧
    ((delete_notification db nid uid).1.filter
        (fun n => !(n.user_id == uid)) =
      db.filter (fun n => !(n.user_id == uid))) ∧
    ((delete_notification db nid uid).2 = true ↔
      ∃ n ∈ db, n.id = nid ∧ n.user_id = uid) := by
  have hmatch : ∀ n : NotificationDoc,
      (n.id == nid && n.user_id == uid) = true →
        (!(n.user_id == uid)) = false := by
    intro n hn
    simp only [Bool.and_eq_true] at hn
    simp [hn.2]
  have hiff : ((db.find? (fun n => n.id == nid && n.user_id == uid)).isSome
      = true) ↔ ∃ n ∈ db, n.id = nid ∧ n.user_id = uid := by
    rw [find?_isSome_iff_exists]
    simp [Bool.and_eq_true, beq_iff_eq]
  refine ⟨?_, hiff, ?_, ?_, hiff⟩
  · exact filter_updateFirst _ _ _ hmatch
      (fun a ha => by
        have := hmatch a ha
        simpa using this) db
  · refine filter_map_invariant _ _ ?_ ?_ db
    · intro n hq
      have hfalse : (n.user_id == uid) = false := by
        simpa using hq
      simp [hfalse]
    · intro n
      by_cases hc : (ids.contains n.id && n.user_id == uid) = true
      · rw [if_pos hc]
        by_cases hr : flag = true
        · rw [if_pos hr]
        · rw [if_neg hr]
      · rw [if_neg hc]
  · exact filter_deleteFirst _ _ hmatch db

/-- Claim C3: relational integrity across collections is not maintained.
There is an initial state with empty ticket/message/notification collections
and a set of requests (each started at its entry point), and an event-loop
schedule of their atomic database steps, after which: a message document
references a ticket id no ticket document has; a notification document
references a ticket id no ticket document has; and an existing ticket's
`message_count` differs from the actual number of its messages.  The run
first executes two `create_ticket` and two `send_message` requests and one
`delete_ticket` sequentially (posting a message to a ticket and then deleting
the ticket produces the dangling records, exactly the claim's example); the
count drift comes from two `delete_message` requests for the same message
whose read/delete/decrement write sequences interleave — possible precisely
because the message deletion and the `message_count` update are separate,
unguarded writes. -/
theorem relational_integrity_not_maintained :
    ∃ (init : Config) (sched : List Nat),
      init.db.tickets = [] ∧ init.db.messages = [] ∧
      init.db.notifications = [] ∧
      init.threads.all isOperationStart = true ∧
      (∃ ms ∈ (runSchedule init sched).db.messages,
        ∀ tk ∈ (runSchedule init sched).db.tickets, tk.id ≠ ms.ticket_id) ∧
      (∃ nt ∈ (runSchedule init sched).db.notifications,
        nt.ticket_id.isSome = true ∧
        ∀ tk ∈ (runSchedule init sched).db.tickets,
          some tk.id ≠ nt.ticket_id) ∧
      (∃ tk ∈ (runSchedule init sched).db.tickets,
        tk.message_count ≠
          (actualMessageCount (runSchedule init sched).db tk.id : Int)) := by
  refine ⟨⟨⟨[⟨"u", Role.customer, none⟩], [], [], []⟩,
    [ThreadState.createT1 1 "u",
     ThreadState.sendM1 "u" Role.customer 1 10,
     ThreadState.createT1 2 "u",
     ThreadState.sendM1 "u" Role.customer 2 20,
     ThreadState.delM1 "u" 20,
     ThreadState.delM1 "u" 20,
     ThreadState.delT1 1]⟩,
    [0, 0, 0, 0, 1, 1, 1, 2, 2, 2, 2, 3, 3, 3, 4, 5, 4, 4, 5, 5, 6], ?_⟩
  decide

end WADS
